import Mathlib

/-!
Verification development for the order-processing core of the
rodinya-case-backend repository (NestJS + Mongoose + BullMQ).

The embedding models, directly from the TypeScript source:
  * `StockService.decrementStockAtomic` and `StockService.incrementStockAtomic`
    (src/stock/stock.service.ts),
  * `OrderProcessor.process` (src/order/order.processor.ts),
  * `OrderDLQProcessor.handleFailedJob` (src/order/order-dlq.processor.ts),
  * `OrderService.createOrder` (src/order/order.service.ts).

MongoDB documents are modelled as association lists keyed by a natural
number standing for the ObjectId.  Quantities are integers because a
MongoDB `$inc` is unconditional and can drive a field negative.

A central point of the model is the semantics of the Mongoose version key
`__v`: Mongoose only maintains `__v` in `Document.save()`.  Query-level
updates such as `findOneAndUpdate`/`findByIdAndUpdate` with a `$inc`
operator do NOT touch `__v` (and update validators do not run on `$inc`,
so a `min: 0` schema bound is not enforced there either).  The comments in
`stock.service.ts` assume the opposite ("__v auto-incremented by
Mongoose"); the embedding follows the actual library semantics.
-/

/-- Stock document (src/stock/entities/stock.entity.ts): a product
reference, an integer quantity, and the Mongoose version key `__v`. -/
structure StockRec where
  productId : Nat
  quantity : Int
  version : Nat
deriving DecidableEq, Repr

/-- The stock collection, as an association list from ObjectId to document. -/
abbrev StockDB := List (Nat × StockRec)

/-- `stockModel.findById(id)`: first document whose id matches. -/
def lookupStock (db : StockDB) (id : Nat) : Option StockRec :=
  (List.find? (fun p => p.1 == id) db).map (fun p => p.2)

/-- Replace the document stored under `id` (no-op when absent). -/
def writeStock (db : StockDB) (id : Nat) (s : StockRec) : StockDB :=
  List.map (fun p => if p.1 == id then (id, s) else p) db

/-- `stockModel.findOneAndUpdate({_id: id, __v: v}, {$inc: {quantity: -n}}, {new: true})`
from `decrementStockAtomic`: the filter checks the id and the captured
version; the update decrements `quantity`.  Mongoose does not modify `__v`
on query-level `$inc` updates, so the stored version is unchanged. -/
def stockFindOneAndUpdateDec (db : StockDB) (id : Nat) (v : Nat) (n : Int) :
    Option StockRec × StockDB :=
  match lookupStock db id with
  | none => (none, db)
  | some s =>
    if s.version = v then
      let s2 : StockRec := { s with quantity := s.quantity - n }
      (some s2, writeStock db id s2)
    else (none, db)

/-- `stockModel.findByIdAndUpdate(id, {$inc: {quantity: n}}, {new: true})`
from `incrementStockAtomic`; again `__v` is untouched. -/
def stockFindByIdAndUpdateInc (db : StockDB) (id : Nat) (n : Int) :
    Option StockRec × StockDB :=
  match lookupStock db id with
  | none => (none, db)
  | some s =>
    let s2 : StockRec := { s with quantity := s.quantity + n }
    (some s2, writeStock db id s2)

/-- Result record of the two atomic stock operations:
`{ success: boolean; currentStock?: Stock; error?: string }`. -/
structure StockResult where
  success : Bool
  currentStock : Option StockRec := none
  error : Option String := none
deriving DecidableEq, Repr

/-- Error string `'Stock not found'` from `decrementStockAtomic`. -/
def stockNotFoundMsg : String := "Stock not found"

/-- Error string for insufficient stock, with the interpolated amounts:
`Insufficient stock. Available: ${a}, Requested: ${n}`. -/
def insufficientMsg (avail requested : Int) : String :=
  "Insufficient stock. Available: " ++ toString avail ++
    ", Requested: " ++ toString requested

/-- Error string `'Max retries exceeded due to version conflicts'`. -/
def maxRetriesMsg : String := "Max retries exceeded due to version conflicts"

/-- The `while (retryCount < maxRetries)` loop of `decrementStockAtomic`,
with the remaining iteration budget as fuel (`maxRetries = 3`).  Each
iteration re-reads the stock, checks availability, and attempts the CAS
update; a CAS miss consumes one retry. -/
def decrementLoop (id : Nat) (n : Int) : StockDB → Nat → StockResult × StockDB
  | db, 0 => (⟨false, none, some maxRetriesMsg⟩, db)
  | db, fuel + 1 =>
    match lookupStock db id with
    | none => (⟨false, none, some stockNotFoundMsg⟩, db)
    | some cur =>
      if cur.quantity < n then
        (⟨false, some cur, some (insufficientMsg cur.quantity n)⟩, db)
      else
        match stockFindOneAndUpdateDec db id cur.version n with
        | (some upd, db2) => (⟨true, some upd, none⟩, db2)
        | (none, db2) => decrementLoop id n db2 fuel

/-- `StockService.decrementStockAtomic(stockId, quantity)`.  The
`dbError` parameter models the `catch` branch: a rejected database call
surfaces as `{success: false, error: 'Database error: ...'}`.  Note the
function performs no validation of `n` (zero or negative amounts take the
normal path). -/
def decrementStockAtomic (dbError : Option String) (db : StockDB)
    (id : Nat) (n : Int) : StockResult × StockDB :=
  match dbError with
  | some m => (⟨false, none, some ("Database error: " ++ m)⟩, db)
  | none => decrementLoop id n db 3

/-- `StockService.incrementStockAtomic(stockId, quantity)` (used for
rollbacks); `dbError` models its `catch` branch. -/
def incrementStockAtomic (dbError : Option String) (db : StockDB)
    (id : Nat) (n : Int) : StockResult × StockDB :=
  match dbError with
  | some m => (⟨false, none, some ("Database error: " ++ m)⟩, db)
  | none =>
    match stockFindByIdAndUpdateInc db id n with
    | (some upd, db2) => (⟨true, some upd, none⟩, db2)
    | (none, db2) => (⟨false, none, some stockNotFoundMsg⟩, db2)

/-- Order status enum (src/order/entities/order.entity.ts). -/
inductive OrderStatus where
  | pending
  | confirmed
  | failed
deriving DecidableEq, Repr

/-- Order document: user, product and stock references, amount, price,
status, VIP flag and failure reason (default empty). -/
structure OrderRec where
  userId : Nat
  productId : Nat
  stockId : Nat
  quantity : Int
  priceAtPurchase : Int
  status : OrderStatus
  isVipOrder : Bool
  failureReason : String := ""
deriving DecidableEq, Repr

/-- The order collection. -/
abbrev OrderDB := List (Nat × OrderRec)

/-- `orderModel.findById(id)`. -/
def lookupOrder (db : OrderDB) (id : Nat) : Option OrderRec :=
  (List.find? (fun p => p.1 == id) db).map (fun p => p.2)

/-- `orderModel.findByIdAndUpdate(id, {status, failureReason}, {new: true})`
as used by the worker and the DLQ observer: an unconditional update of the
two fields whenever the document exists.  There is no filter on the
current status. -/
def orderFindByIdAndUpdate (db : OrderDB) (id : Nat) (st : OrderStatus)
    (reason : String) : Option OrderRec × OrderDB :=
  match lookupOrder db id with
  | none => (none, db)
  | some o =>
    let o2 : OrderRec := { o with status := st, failureReason := reason }
    (some o2, List.map (fun p => if p.1 == id then (id, o2) else p) db)

/-- JavaScript `s.includes(pat)`: substring containment. -/
def jsIncludes (s pat : String) : Bool :=
  decide (pat.data <:+: s.data)

/-- JavaScript `s?.includes(pat)` on a possibly-undefined string:
`undefined?.includes(...)` is `undefined`, which is falsy. -/
def jsIncludesOpt (o : Option String) (pat : String) : Bool :=
  match o with
  | some s => jsIncludes s pat
  | none => false

/-- JavaScript `s || d` on a possibly-undefined string: the default is
taken when the string is `undefined` or empty (falsy). -/
def jsOrDefault (o : Option String) (d : String) : String :=
  match o with
  | some s => if s = "" then d else s
  | none => d

/-- Errors thrown by the worker: `BusinessLogicError` (src/order/order.errors.ts,
a plain `Error` subclass used as a marker for terminal business failures)
versus an ordinary `Error` (transient). -/
inductive JsError where
  | business (msg : String)
  | plain (msg : String)
deriving DecidableEq, Repr

/-- Observable side-effects of a handler run, in execution order. -/
inductive Eff where
  | decCall (stockId : Nat) (n : Int)
  | incCall (stockId : Nat) (n : Int)
  | orderWrite (orderId : Nat) (st : OrderStatus) (reason : String)
  | moveJobToFailed (msg : String)
  | logCritical (msg : String)
  | logError (msg : String)
deriving DecidableEq, Repr

/-- Nondeterministic environment of one `OrderProcessor.process` run:
whether the stock read/update rejects (`Database error`), whether the
simulated payment fails (`Math.random() < 0.1`), whether the CONFIRMED
order write rejects, and whether the rollback increment rejects. -/
structure Env where
  decDbError : Option String := none
  paymentFails : Bool := false
  confirmThrows : Option String := none
  rollbackDbError : Option String := none
deriving DecidableEq, Repr

/-- The all-benign environment: no database rejection, payment succeeds. -/
def envBenign : Env := {}

/-- Shared persistent state: the stock and order collections. -/
structure Sys where
  stocks : StockDB
  orders : OrderDB

/-- The fields of `job.data` destructured by `OrderProcessor.process`:
`const { orderId, stockId, quantity } = job.data`. -/
structure JobData where
  orderId : Nat
  stockId : Nat
  quantity : Int
deriving DecidableEq, Repr

/-- Outcome of one handler run: the returned/thrown result (`.error` models
a thrown exception propagating out of `process`), the state after the run,
and the trace of side-effects. -/
structure ProcOut where
  result : Except JsError Unit
  sys : Sys
  trace : List Eff

/-- Error string of the simulated payment failure. -/
def paymentTimeoutMsg : String := "Payment gateway timeout - please retry"

/-- The inner `catch (transientError)` block of `OrderProcessor.process`:
roll back the reservation with `incrementStockAtomic(stockId, quantity)`,
log CRITICAL if the rollback itself fails, then re-throw the original
transient error. -/
def rollbackCatch (env : Env) (sys : Sys) (job : JobData) (e : JsError) :
    ProcOut :=
  let roll := incrementStockAtomic env.rollbackDbError sys.stocks
    job.stockId job.quantity
  { result := Except.error e,
    sys := { sys with stocks := roll.2 },
    trace := Eff.incCall job.stockId job.quantity ::
      (if roll.1.success then []
       else [Eff.logCritical "Failed to rollback stock"]) }

/-- The body of `OrderProcessor.process` after `decrementStockAtomic` has
returned `res` (the state `sys` already reflects that call).  Mirrors the
source: a failed reservation is classified by substring tests on the error
message ('version conflicts' / 'Database error' are transient, anything
else is a `BusinessLogicError`); on success the simulated payment runs,
then the CONFIRMED write, with the inner catch rolling back the
reservation on a transient throw. -/
def afterDec (env : Env) (sys : Sys) (job : JobData) (res : StockResult) :
    ProcOut :=
  if res.success then
    if env.paymentFails then
      rollbackCatch env sys job (JsError.plain paymentTimeoutMsg)
    else
      match env.confirmThrows with
      | some e => rollbackCatch env sys job (JsError.plain e)
      | none =>
        let upd := orderFindByIdAndUpdate sys.orders job.orderId
          OrderStatus.confirmed ""
        { result := Except.ok (),
          sys := { sys with orders := upd.2 },
          trace := Eff.orderWrite job.orderId OrderStatus.confirmed "" ::
            (if upd.1.isSome then []
             else [Eff.logCritical "Order not found at CONFIRMED write"]) }
  else
    if jsIncludesOpt res.error "version conflicts" ||
        jsIncludesOpt res.error "Database error" then
      { result := Except.error (JsError.plain
          (jsOrDefault res.error "Transient stock operation failed")),
        sys := sys, trace := [] }
    else
      { result := Except.error (JsError.business
          (jsOrDefault res.error "Stock operation failed")),
        sys := sys, trace := [] }

/-- `OrderProcessor.process` given the result of the stock decrement: the
try body (`afterDec`) wrapped in the outer `catch (error)`, which marks
the order FAILED and calls `job.moveToFailed` for a `BusinessLogicError`
(returning normally), and re-throws anything else. -/
def processWithResult (env : Env) (sys : Sys) (job : JobData)
    (res : StockResult) : ProcOut :=
  let body := afterDec env sys job res
  let body := { body with
    trace := Eff.decCall job.stockId job.quantity :: body.trace }
  match body.result with
  | Except.error (JsError.business m) =>
    let upd := orderFindByIdAndUpdate body.sys.orders job.orderId
      OrderStatus.failed m
    { result := Except.ok (),
      sys := { body.sys with orders := upd.2 },
      trace := body.trace ++
        [Eff.orderWrite job.orderId OrderStatus.failed m,
         Eff.moveJobToFailed m] }
  | _ => body

/-- `OrderProcessor.process(job)`: run `decrementStockAtomic` on the live
state, then the rest of the handler.  Note the handler performs NO read of
the order before reserving stock. -/
def process (env : Env) (sys : Sys) (job : JobData) : ProcOut :=
  let dec := decrementStockAtomic env.decDbError sys.stocks
    job.stockId job.quantity
  processWithResult env { sys with stocks := dec.2 } job dec.1

/-- `OrderDLQProcessor.handleFailedJob(job, error)`: on a `failed` queue
event, unconditionally write FAILED with the error message (or a default
when the message is empty) via `findByIdAndUpdate`; the whole write is
wrapped in try/catch, so a rejected write is logged and swallowed
(`writeThrows` models the rejection). -/
def handleFailedJob (writeThrows : Bool) (orders : OrderDB) (orderId : Nat)
    (errMsg : String) : Except JsError (OrderDB × List Eff) :=
  let reason :=
    if errMsg = "" then "Job processing failed after all retries" else errMsg
  if writeThrows then
    Except.ok (orders, [Eff.logError "Failed to update order status to FAILED"])
  else
    let upd := orderFindByIdAndUpdate orders orderId OrderStatus.failed reason
    Except.ok (upd.2,
      if upd.1.isSome then [Eff.orderWrite orderId OrderStatus.failed reason]
      else [Eff.logError "Order not found when trying to update status to FAILED"])

/-- Job options passed by `OrderService.createOrder` to `orderQueue.add`:
priority (absent for non-VIP users), retention counts, attempt budget and
backoff configuration. -/
structure JobOpts where
  priority : Option Nat
  removeOnCompleteCount : Nat
  removeOnFailCount : Nat
  attempts : Nat
  backoffType : String
  backoffDelay : Nat
deriving DecidableEq, Repr

/-- Queue payload built in `createOrder`: the submitted order data plus
the fetched product id and the saved order id. -/
structure QueuePayload where
  userId : Nat
  productId : Nat
  stockId : Nat
  quantity : Int
  priceAtPurchase : Int
  isVipOrder : Bool
  orderId : Nat
deriving DecidableEq, Repr

/-- A job as enqueued by `orderQueue.add(name, payload, opts)`. -/
structure QueuedJob where
  name : String
  payload : QueuePayload
  opts : JobOpts
deriving DecidableEq, Repr

/-- Order submission data received by `createOrder` (the `OrderPayload`
fields filled in by the controller; `productId` is fetched from the stock
document, not taken from the caller). -/
structure OrderIn where
  userId : Nat
  stockId : Nat
  quantity : Int
  priceAtPurchase : Int
  isVipOrder : Bool
deriving DecidableEq, Repr

/-- BullMQ's documented exponential backoff: the delay before retry
number `attempt` is `delay * 2 ^ (attempt - 1)` milliseconds. -/
def bullmqExponentialDelay (base attempt : Nat) : Nat :=
  base * 2 ^ (attempt - 1)

/-- `OrderService.createOrder(orderData, isVip)`: look up the stock (404
when absent), save a PENDING order document, then enqueue the processing
job inside a try/catch.  `enqueueFails` models a rejected `orderQueue.add`;
in that case the order is NOT deleted (it stays PENDING in the store) and
the error is re-thrown.  Returns the thrown/returned value together with
the resulting order store and queue. -/
def createOrder (orders : OrderDB) (stocks : StockDB) (queue : List QueuedJob)
    (data : OrderIn) (isVip : Bool) (newOrderId : Nat)
    (enqueueFails : Option String) :
    Except JsError Nat × OrderDB × List QueuedJob :=
  match lookupStock stocks data.stockId with
  | none =>
    (Except.error (JsError.plain
      ("Stock with ID " ++ toString data.stockId ++ " not found")),
     orders, queue)
  | some stock =>
    let ord : OrderRec :=
      { userId := data.userId, productId := stock.productId,
        stockId := data.stockId, quantity := data.quantity,
        priceAtPurchase := data.priceAtPurchase,
        status := OrderStatus.pending, isVipOrder := data.isVipOrder,
        failureReason := "" }
    let orders2 := orders ++ [(newOrderId, ord)]
    let jobOptions : JobOpts :=
      { priority := if isVip then some 1 else none,
        removeOnCompleteCount := 500,
        removeOnFailCount := 10,
        attempts := 5,
        backoffType := "exponential",
        backoffDelay := 2000 }
    match enqueueFails with
    | some e => (Except.error (JsError.plain e), orders2, queue)
    | none =>
      let payload : QueuePayload :=
        { userId := data.userId, productId := stock.productId,
          stockId := data.stockId, quantity := data.quantity,
          priceAtPurchase := data.priceAtPurchase,
          isVipOrder := data.isVipOrder, orderId := newOrderId }
      (Except.ok newOrderId, orders2,
       queue ++ [{ name := "process-order", payload := payload,
                   opts := jobOptions }])

/-- Control point of one in-flight `decrementStockAtomic` call in the
interleaved model: about to re-read the stock (with `retry` CAS misses so
far), about to attempt the CAS with a captured version, or finished. -/
inductive ResPhase where
  | read (retry : Nat)
  | cas (retry : Nat) (seenVersion : Nat)
  | done (res : StockResult)
deriving DecidableEq, Repr

/-- One concurrent reservation call: target stock, requested amount, and
its current control point. -/
structure ResAgent where
  stockId : Nat
  amount : Int
  phase : ResPhase
deriving DecidableEq, Repr

/-- One atomic database interaction of a reservation call, exactly the
suspension points of `decrementStockAtomic`: the `findById` read together
with the local availability check, or the CAS `findOneAndUpdate`.  A CAS
miss consumes one of the 3 retries (`retryCount++` and the loop
condition). -/
def stepAgent (db : StockDB) (a : ResAgent) : StockDB × ResAgent :=
  match a.phase with
  | ResPhase.done _ => (db, a)
  | ResPhase.read r =>
    match lookupStock db a.stockId with
    | none =>
      (db, { a with phase := ResPhase.done (⟨false, none, some stockNotFoundMsg⟩ : StockResult) })
    | some cur =>
      if cur.quantity < a.amount then
        (db, { a with phase := ResPhase.done (⟨false, some cur,
          some (insufficientMsg cur.quantity a.amount)⟩ : StockResult) })
      else
        (db, { a with phase := ResPhase.cas r cur.version })
  | ResPhase.cas r v =>
    match stockFindOneAndUpdateDec db a.stockId v a.amount with
    | (some upd, db2) =>
      (db2, { a with phase := ResPhase.done (⟨true, some upd, none⟩ : StockResult) })
    | (none, db2) =>
      if r + 1 < 3 then (db2, { a with phase := ResPhase.read (r + 1) })
      else (db2, { a with phase := ResPhase.done (⟨false, none, some maxRetriesMsg⟩ : StockResult) })

/-- Run the agent named by the schedule entry for one atomic step. -/
def stepIndexed (st : StockDB × List ResAgent) (i : Nat) :
    StockDB × List ResAgent :=
  match st.2[i]? with
  | none => st
  | some a =>
    let r := stepAgent st.1 a
    (r.1, st.2.set i r.2)

/-- Run a whole interleaving: the schedule lists, in order, which call
performs its next atomic database interaction. -/
def runSchedule (db : StockDB) (agents : List ResAgent) (sched : List Nat) :
    StockDB × List ResAgent :=
  sched.foldl stepIndexed (db, agents)

theorem findMapWrite_self {α : Type} (db : List (Nat × α)) (id : Nat) (x : α) :
    List.find? (fun p => p.1 == id)
        (db.map (fun p => if p.1 == id then (id, x) else p))
      = (List.find? (fun p => p.1 == id) db).map (fun _ => (id, x)) := by
  induction db with
  | nil => rfl
  | cons p tl ih =>
    rw [List.map_cons]
    by_cases h : p.1 = id
    · rw [if_pos (by simpa using h)]
      rw [List.find?_cons_of_pos _ (by simp),
        List.find?_cons_of_pos _ (by simpa using h)]
      rfl
    · rw [if_neg (by simpa using h)]
      rw [List.find?_cons_of_neg _ (by simpa using h),
        List.find?_cons_of_neg _ (by simpa using h)]
      exact ih

theorem findMapWrite_ne {α : Type} (db : List (Nat × α)) (id k : Nat) (x : α)
    (hk : k ≠ id) :
    List.find? (fun p => p.1 == k)
        (db.map (fun p => if p.1 == id then (id, x) else p))
      = List.find? (fun p => p.1 == k) db := by
  induction db with
  | nil => rfl
  | cons p tl ih =>
    rw [List.map_cons]
    by_cases h : p.1 = id
    · rw [if_pos (by simpa using h)]
      rw [List.find?_cons_of_neg _ (by simp [Ne.symm hk]),
        List.find?_cons_of_neg _ (by simp [h, Ne.symm hk])]
      exact ih
    · rw [if_neg (by simpa using h)]
      by_cases h2 : p.1 = k
      · rw [List.find?_cons_of_pos _ (by simpa using h2),
          List.find?_cons_of_pos _ (by simpa using h2)]
      · rw [List.find?_cons_of_neg _ (by simpa using h2),
          List.find?_cons_of_neg _ (by simpa using h2)]
        exact ih

theorem lookupStock_write_self (db : StockDB) (id : Nat) (x : StockRec) :
    lookupStock (writeStock db id x) id
      = (lookupStock db id).map (fun _ => x) := by
  unfold lookupStock writeStock
  rw [findMapWrite_self]
  cases List.find? (fun p => p.1 == id) db <;> rfl

theorem lookupStock_write_ne (db : StockDB) (id k : Nat) (x : StockRec)
    (hk : k ≠ id) :
    lookupStock (writeStock db id x) k = lookupStock db k := by
  unfold lookupStock writeStock
  rw [findMapWrite_ne _ _ _ _ hk]

theorem lookupOrder_update_self (db : OrderDB) (id : Nat) (st : OrderStatus)
    (r : String) (o : OrderRec) (ho : lookupOrder db id = some o) :
    lookupOrder (orderFindByIdAndUpdate db id st r).2 id
      = some { o with status := st, failureReason := r } := by
  rcases Option.map_eq_some'.mp ho with ⟨p, hp, hp2⟩
  simp only [orderFindByIdAndUpdate, ho]
  unfold lookupOrder
  rw [findMapWrite_self, hp]
  rfl

theorem decrement_insufficient (db : StockDB) (id : Nat) (n : Int)
    (s : StockRec) (hs : lookupStock db id = some s) (hq : s.quantity < n) :
    decrementStockAtomic none db id n
      = (⟨false, some s, some (insufficientMsg s.quantity n)⟩, db) := by
  simp [decrementStockAtomic, decrementLoop, hs, hq]

theorem decrement_notFound (db : StockDB) (id : Nat) (n : Int)
    (hs : lookupStock db id = none) :
    decrementStockAtomic none db id n
      = (⟨false, none, some stockNotFoundMsg⟩, db) := by
  simp [decrementStockAtomic, decrementLoop, hs]

theorem decrement_success (db : StockDB) (id : Nat) (n : Int) (s : StockRec)
    (hs : lookupStock db id = some s) (hq : ¬ s.quantity < n) :
    decrementStockAtomic none db id n
      = (⟨true, some { s with quantity := s.quantity - n }, none⟩,
         writeStock db id { s with quantity := s.quantity - n }) := by
  simp [decrementStockAtomic, decrementLoop, hs, hq, stockFindOneAndUpdateDec]

theorem increment_found (db : StockDB) (id : Nat) (n : Int) (s : StockRec)
    (hs : lookupStock db id = some s) :
    incrementStockAtomic none db id n
      = (⟨true, some { s with quantity := s.quantity + n }, none⟩,
         writeStock db id { s with quantity := s.quantity + n }) := by
  simp [incrementStockAtomic, stockFindByIdAndUpdateInc, hs]

theorem digitChar_mem (m : Nat) (h : m < 10) :
    Nat.digitChar m ∈ "0123456789".data := by
  interval_cases m <;> decide

theorem toDigitsCore_digits (fuel : Nat) : ∀ (n : Nat) (ds : List Char),
    (∀ c ∈ ds, c ∈ "0123456789".data) →
    ∀ c ∈ Nat.toDigitsCore 10 fuel n ds, c ∈ "0123456789".data := by
  induction fuel with
  | zero => intro n ds h; simpa [Nat.toDigitsCore] using h
  | succ f ih =>
    intro n ds h c hc
    rw [Nat.toDigitsCore] at hc
    have hd : Nat.digitChar (n % 10) ∈ "0123456789".data :=
      digitChar_mem _ (Nat.mod_lt _ (by omega))
    split at hc
    · rcases List.mem_cons.mp hc with h1 | h2
      · exact h1 ▸ hd
      · exact h _ h2
    · refine ih _ _ ?_ c hc
      intro c2 hc2
      rcases List.mem_cons.mp hc2 with h1 | h2
      · exact h1 ▸ hd
      · exact h _ h2

theorem natRepr_digits (n : Nat) :
    ∀ c ∈ (Nat.repr n).data, c ∈ "0123456789".data := by
  have := toDigitsCore_digits (n + 1) n [] (by simp)
  simpa [Nat.repr, Nat.toDigits, List.asString] using this

theorem intToString_chars (i : Int) :
    ∀ c ∈ (toString i).data, c ∈ "-0123456789".data := by
  have hsub : "0123456789".data ⊆ "-0123456789".data := by decide
  cases i with
  | ofNat m =>
    intro c hc
    exact hsub (natRepr_digits m c hc)
  | negSucc m =>
    intro c hc
    have h2 : c ∈ ("-" ++ Nat.repr (m + 1)).data := hc
    rw [String.data_append] at h2
    rcases List.mem_append.mp h2 with h3 | h3
    · rcases List.mem_cons.mp h3 with h4 | h4
      · rw [h4]; decide
      · simp at h4
    · exact hsub (natRepr_digits (m + 1) c h3)

theorem insufficientMsg_data (a n : Int) :
    (insufficientMsg a n).data
      = "Insufficient stock. Available: ".data ++ ((toString a).data
        ++ (", Requested: ".data ++ (toString n).data)) := by
  simp [insufficientMsg, String.data_append]

theorem mem_insufficientMsg (a n : Int) (c : Char)
    (hc : c ∈ (insufficientMsg a n).data) :
    c ∈ "Insufficient stock. Available: ".data ∨ c ∈ "-0123456789".data
      ∨ c ∈ ", Requested: ".data := by
  rw [insufficientMsg_data] at hc
  rcases List.mem_append.mp hc with h1 | h1
  · exact Or.inl h1
  rcases List.mem_append.mp h1 with h2 | h2
  · exact Or.inr (Or.inl (intToString_chars a c h2))
  rcases List.mem_append.mp h2 with h3 | h3
  · exact Or.inr (Or.inr h3)
  · exact Or.inr (Or.inl (intToString_chars n c h3))

theorem insufficient_no_vc (a n : Int) :
    jsIncludes (insufficientMsg a n) "version conflicts" = false := by
  unfold jsIncludes
  rw [decide_eq_false_iff_not]
  intro h
  have hr : ('r' : Char) ∈ (insufficientMsg a n).data :=
    h.subset (by decide)
  rcases mem_insufficientMsg a n _ hr with h1 | h1 | h1 <;> revert h1 <;> decide

theorem insufficient_no_dberr (a n : Int) :
    jsIncludes (insufficientMsg a n) "Database error" = false := by
  unfold jsIncludes
  rw [decide_eq_false_iff_not]
  intro h
  have hr : ('D' : Char) ∈ (insufficientMsg a n).data :=
    h.subset (by decide)
  rcases mem_insufficientMsg a n _ hr with h1 | h1 | h1 <;> revert h1 <;> decide

theorem insufficientMsg_ne_empty (a n : Int) : insufficientMsg a n ≠ "" := by
  intro h
  have h3 : ('I' : Char) ∈ (insufficientMsg a n).data := by
    rw [insufficientMsg_data]
    exact List.mem_append_left _ (by decide)
  rw [h] at h3
  revert h3
  decide

theorem notFound_no_vc :
    jsIncludes stockNotFoundMsg "version conflicts" = false := by decide

theorem notFound_no_dberr :
    jsIncludes stockNotFoundMsg "Database error" = false := by decide

theorem maxRetries_has_vc :
    jsIncludes maxRetriesMsg "version conflicts" = true := by decide

theorem decrement_version_invariant (db : StockDB) (id : Nat) (n : Int)
    (k : Nat) :
    (lookupStock (decrementStockAtomic none db id n).2 k).map StockRec.version
      = (lookupStock db k).map StockRec.version := by
  unfold decrementStockAtomic decrementLoop
  cases hlu : lookupStock db id with
  | none => simp
  | some cur =>
    by_cases hq : cur.quantity < n
    · simp [hq]
    · simp only [hq, if_false, stockFindOneAndUpdateDec, hlu, eq_self_iff_true,
        if_true]
      by_cases hk : k = id
      · subst hk
        rw [lookupStock_write_self, hlu]
        rfl
      · rw [lookupStock_write_ne _ _ _ _ hk]

theorem increment_version_invariant (db : StockDB) (id : Nat) (n : Int)
    (k : Nat) :
    (lookupStock (incrementStockAtomic none db id n).2 k).map StockRec.version
      = (lookupStock db k).map StockRec.version := by
  unfold incrementStockAtomic stockFindByIdAndUpdateInc
  cases hlu : lookupStock db id with
  | none => simp
  | some cur =>
    simp only []
    by_cases hk : k = id
    · subst hk
      rw [lookupStock_write_self, hlu]
      rfl
    · rw [lookupStock_write_ne _ _ _ _ hk]

/-- C3: the claim that every successful stock mutation increments the
version by exactly 1 is refuted by the code: Mongoose does not maintain
`__v` across `findOneAndUpdate`/`findByIdAndUpdate` with `$inc` (contrary
to the comments in `stock.service.ts`), so the version is unchanged by
every `decrementStockAtomic` and `incrementStockAtomic` call.  Evaluated
at the happy-path input (quantity 100, reserve 5): the decrement succeeds
but the version stays 0; and in general no call to either operation ever
changes any stored version. -/
theorem C3_version_never_incremented :
    ((decrementStockAtomic none [(1, ⟨7, 100, 0⟩)] 1 5).1.success = true
      ∧ (decrementStockAtomic none [(1, ⟨7, 100, 0⟩)] 1 5).2
          = [(1, ⟨7, 95, 0⟩)])
    ∧ (∀ (db : StockDB) (id : Nat) (n : Int) (k : Nat),
        (lookupStock (decrementStockAtomic none db id n).2 k).map
            StockRec.version
          = (lookupStock db k).map StockRec.version)
    ∧ (∀ (db : StockDB) (id : Nat) (n : Int) (k : Nat),
        (lookupStock (incrementStockAtomic none db id n).2 k).map
            StockRec.version
          = (lookupStock db k).map StockRec.version) :=
  ⟨by decide, decrement_version_invariant, increment_version_invariant⟩

/-- Two concurrent reservation calls of 5 units each against the same
stock record holding 5 units, interleaved read/read/update/update. -/
def oversellAgents : List ResAgent :=
  [⟨1, 5, ResPhase.read 0⟩, ⟨1, 5, ResPhase.read 0⟩]

/-- C5: the no-oversell claim fails under concurrency.  Because `__v` is
never changed by the `$inc` updates, the optimistic-lock filter
`{_id, __v}` of the second CAS still matches after the first call has
decremented the stock, so both reservations of 5 units against a quantity
of 5 succeed and the final quantity is −5 (the `min: 0` schema validator
does not run on `$inc` updates).  The interleaving is: both calls read
quantity 5 and version 0, then both updates apply. -/
theorem C5_concurrent_oversell :
    (runSchedule [(1, ⟨7, 5, 0⟩)] oversellAgents [0, 1, 0, 1]).1
        = [(1, ⟨7, -5, 0⟩)]
    ∧ ((runSchedule [(1, ⟨7, 5, 0⟩)] oversellAgents [0, 1, 0, 1]).2.map
          (fun a => a.phase))
        = [ResPhase.done ⟨true, some ⟨7, 0, 0⟩, none⟩,
           ResPhase.done ⟨true, some ⟨7, -5, 0⟩, none⟩] := by
  decide

/-- C7: counterexample to the claim that `n = 0` is rejected as invalid
input: `decrementStockAtomic` has no validation of the amount, so a call
with `n = 0` on a stock of quantity 10 returns `success: true` (an empty
reservation), leaving the record unchanged. -/
theorem C7_counterexample_zero_accepted :
    (decrementStockAtomic none [(1, ⟨7, 10, 0⟩)] 1 0).1.success = true
    ∧ (decrementStockAtomic none [(1, ⟨7, 10, 0⟩)] 1 0).2
        = [(1, ⟨7, 10, 0⟩)] := by
  decide

/-- C7 (amended): `decrementStockAtomic` performs no positivity check on
the requested amount: whenever the stock exists and its quantity is
non-negative, a call with `n = 0` succeeds as an empty reservation and
every stored record reads back unchanged. -/
theorem C7_zero_treated_as_success (db : StockDB) (id : Nat) (s : StockRec)
    (hs : lookupStock db id = some s) (hq : 0 ≤ s.quantity) :
    (decrementStockAtomic none db id 0).1.success = true
    ∧ (decrementStockAtomic none db id 0).1.currentStock = some s
    ∧ ∀ k, lookupStock (decrementStockAtomic none db id 0).2 k
        = lookupStock db k := by
  have hq2 : ¬ s.quantity < 0 := not_lt.mpr hq
  have hs0 : ({ s with quantity := s.quantity - 0 } : StockRec) = s := by
    simp
  rw [decrement_success db id 0 s hs hq2, hs0]
  refine ⟨rfl, rfl, fun k => ?_⟩
  by_cases hk : k = id
  · subst hk
    rw [lookupStock_write_self, hs]
    rfl
  · rw [lookupStock_write_ne _ _ _ _ hk]

/-- C7 witness: the amended statement at the concrete record of quantity 10. -/
theorem C7_zero_treated_as_success_witness :
    (decrementStockAtomic none [(1, ⟨7, 10, 0⟩)] 1 0).1.success = true
    ∧ (decrementStockAtomic none [(1, ⟨7, 10, 0⟩)] 1 0).1.currentStock
        = some ⟨7, 10, 0⟩
    ∧ ∀ k, lookupStock (decrementStockAtomic none [(1, ⟨7, 10, 0⟩)] 1 0).2 k
        = lookupStock [(1, ⟨7, 10, 0⟩)] k :=
  C7_zero_treated_as_success [(1, ⟨7, 10, 0⟩)] 1 ⟨7, 10, 0⟩ (by decide)
    (by decide)

/-- C4: the worker classifies reservation failures exactly as claimed:
(1) an insufficient-stock result makes it mark the order FAILED with that
reason, call `job.moveToFailed`, and return normally, leaving stock
untouched; (2) a stock-not-found result is handled the same way; (3) a
result carrying the CAS-exhaustion message ('Max retries exceeded due to
version conflicts') makes it throw that error for the queue to retry,
with no order write and no `moveToFailed`. -/
theorem C4_failure_classification :
    (∀ (env : Env) (stocks : StockDB) (orders : OrderDB) (oid sid : Nat)
        (n : Int) (s : StockRec) (o : OrderRec),
        env.decDbError = none →
        lookupStock stocks sid = some s →
        s.quantity < n →
        lookupOrder orders oid = some o →
        (process env ⟨stocks, orders⟩ ⟨oid, sid, n⟩).result = Except.ok ()
        ∧ (process env ⟨stocks, orders⟩ ⟨oid, sid, n⟩).trace
            = [Eff.decCall sid n,
               Eff.orderWrite oid OrderStatus.failed
                 (insufficientMsg s.quantity n),
               Eff.moveJobToFailed (insufficientMsg s.quantity n)]
        ∧ lookupOrder
              (process env ⟨stocks, orders⟩ ⟨oid, sid, n⟩).sys.orders oid
            = some { o with status := OrderStatus.failed, failureReason := insufficientMsg s.quantity n }
        ∧ (process env ⟨stocks, orders⟩ ⟨oid, sid, n⟩).sys.stocks = stocks)
    ∧ (∀ (env : Env) (stocks : StockDB) (orders : OrderDB) (oid sid : Nat)
        (n : Int) (o : OrderRec),
        env.decDbError = none →
        lookupStock stocks sid = none →
        lookupOrder orders oid = some o →
        (process env ⟨stocks, orders⟩ ⟨oid, sid, n⟩).result = Except.ok ()
        ∧ (process env ⟨stocks, orders⟩ ⟨oid, sid, n⟩).trace
            = [Eff.decCall sid n,
               Eff.orderWrite oid OrderStatus.failed stockNotFoundMsg,
               Eff.moveJobToFailed stockNotFoundMsg]
        ∧ lookupOrder
              (process env ⟨stocks, orders⟩ ⟨oid, sid, n⟩).sys.orders oid
            = some { o with status := OrderStatus.failed, failureReason := stockNotFoundMsg }
        ∧ (process env ⟨stocks, orders⟩ ⟨oid, sid, n⟩).sys.stocks = stocks)
    ∧ (∀ (env : Env) (sys : Sys) (job : JobData),
        (processWithResult env sys job ⟨false, none, some maxRetriesMsg⟩).result
            = Except.error (JsError.plain maxRetriesMsg)
        ∧ (processWithResult env sys job
              ⟨false, none, some maxRetriesMsg⟩).sys.orders = sys.orders
        ∧ (processWithResult env sys job
              ⟨false, none, some maxRetriesMsg⟩).sys.stocks = sys.stocks
        ∧ (processWithResult env sys job
              ⟨false, none, some maxRetriesMsg⟩).trace
            = [Eff.decCall job.stockId job.quantity]) := by
  refine ⟨?_, ?_, ?_⟩
  · intro env stocks orders oid sid n s o hde hs hq ho
    have hne := insufficientMsg_ne_empty s.quantity n
    have hupd := lookupOrder_update_self orders oid OrderStatus.failed
      (insufficientMsg s.quantity n) o ho
    refine ⟨?_, ?_, ?_, ?_⟩ <;>
      simp [process, hde, decrement_insufficient stocks sid n s hs hq,
        processWithResult, afterDec, jsIncludesOpt, insufficient_no_vc,
        insufficient_no_dberr, jsOrDefault, hne, hupd]
  · intro env stocks orders oid sid n o hde hs ho
    have hne : stockNotFoundMsg ≠ "" := by decide
    have hupd := lookupOrder_update_self orders oid OrderStatus.failed
      stockNotFoundMsg o ho
    refine ⟨?_, ?_, ?_, ?_⟩ <;>
      simp [process, hde, decrement_notFound stocks sid n hs,
        processWithResult, afterDec, jsIncludesOpt, notFound_no_vc,
        notFound_no_dberr, jsOrDefault, hne, hupd]
  · intro env sys job
    have hne : maxRetriesMsg ≠ "" := by decide
    refine ⟨?_, ?_, ?_, ?_⟩ <;>
      simp [processWithResult, afterDec, jsIncludesOpt, maxRetries_has_vc,
        jsOrDefault, hne]

/-- A PENDING order fixture used by witnesses. -/
def oPend : OrderRec := ⟨10, 7, 1, 5, 99, OrderStatus.pending, false, ""⟩

/-- C4 witness: the three branches at concrete inputs (quantity 3 vs
requested 5; missing stock; CAS-exhaustion result). -/
theorem C4_failure_classification_witness :
    ((process envBenign ⟨[(1, ⟨7, 3, 0⟩)], [(2, oPend)]⟩ ⟨2, 1, 5⟩).result
        = Except.ok ()
      ∧ (process envBenign ⟨[(1, ⟨7, 3, 0⟩)], [(2, oPend)]⟩ ⟨2, 1, 5⟩).trace
          = [Eff.decCall 1 5,
             Eff.orderWrite 2 OrderStatus.failed (insufficientMsg 3 5),
             Eff.moveJobToFailed (insufficientMsg 3 5)]
      ∧ lookupOrder
            (process envBenign ⟨[(1, ⟨7, 3, 0⟩)], [(2, oPend)]⟩
              ⟨2, 1, 5⟩).sys.orders 2
          = some { oPend with status := OrderStatus.failed, failureReason := insufficientMsg 3 5 }
      ∧ (process envBenign ⟨[(1, ⟨7, 3, 0⟩)], [(2, oPend)]⟩
            ⟨2, 1, 5⟩).sys.stocks = [(1, ⟨7, 3, 0⟩)])
    ∧ ((process envBenign ⟨[], [(2, oPend)]⟩ ⟨2, 1, 5⟩).result = Except.ok ()
      ∧ (process envBenign ⟨[], [(2, oPend)]⟩ ⟨2, 1, 5⟩).trace
          = [Eff.decCall 1 5,
             Eff.orderWrite 2 OrderStatus.failed stockNotFoundMsg,
             Eff.moveJobToFailed stockNotFoundMsg]
      ∧ lookupOrder
            (process envBenign ⟨[], [(2, oPend)]⟩ ⟨2, 1, 5⟩).sys.orders 2
          = some { oPend with status := OrderStatus.failed, failureReason := stockNotFoundMsg }
      ∧ (process envBenign ⟨[], [(2, oPend)]⟩ ⟨2, 1, 5⟩).sys.stocks = [])
    ∧ ((processWithResult envBenign ⟨[], []⟩ ⟨2, 1, 5⟩
          ⟨false, none, some maxRetriesMsg⟩).result
            = Except.error (JsError.plain maxRetriesMsg)
      ∧ (processWithResult envBenign ⟨[], []⟩ ⟨2, 1, 5⟩
          ⟨false, none, some maxRetriesMsg⟩).sys.orders = ([] : OrderDB)
      ∧ (processWithResult envBenign ⟨[], []⟩ ⟨2, 1, 5⟩
          ⟨false, none, some maxRetriesMsg⟩).sys.stocks = ([] : StockDB)
      ∧ (processWithResult envBenign ⟨[], []⟩ ⟨2, 1, 5⟩
          ⟨false, none, some maxRetriesMsg⟩).trace = [Eff.decCall 1 5]) :=
  ⟨C4_failure_classification.1 envBenign [(1, ⟨7, 3, 0⟩)] [(2, oPend)] 2 1 5
      ⟨7, 3, 0⟩ oPend rfl (by decide) (by decide) (by decide),
   C4_failure_classification.2.1 envBenign [] [(2, oPend)] 2 1 5 oPend rfl
      (by decide) (by decide),
   C4_failure_classification.2.2 envBenign ⟨[], []⟩ ⟨2, 1, 5⟩⟩

/-- C6: after a successful reservation, a transient failure of the payment
step or of the CONFIRMED order write makes the worker call
`incrementStockAtomic` with the same stock id and amount and then re-throw
the original error; the compensation restores the reserved quantity, and
no order write happens.  If the rollback itself fails, a CRITICAL log is
emitted and the original transient error is still the one propagated. -/
theorem C6_compensation_on_transient :
    (∀ (env : Env) (stocks : StockDB) (orders : OrderDB) (oid sid : Nat)
        (n : Int) (s : StockRec),
        env.decDbError = none → env.paymentFails = true →
        env.rollbackDbError = none →
        lookupStock stocks sid = some s → ¬ s.quantity < n →
        (process env ⟨stocks, orders⟩ ⟨oid, sid, n⟩).result
            = Except.error (JsError.plain paymentTimeoutMsg)
        ∧ (process env ⟨stocks, orders⟩ ⟨oid, sid, n⟩).trace
            = [Eff.decCall sid n, Eff.incCall sid n]
        ∧ lookupStock (process env ⟨stocks, orders⟩ ⟨oid, sid, n⟩).sys.stocks
              sid = some s
        ∧ (process env ⟨stocks, orders⟩ ⟨oid, sid, n⟩).sys.orders = orders)
    ∧ (∀ (env : Env) (stocks : StockDB) (orders : OrderDB) (oid sid : Nat)
        (n : Int) (s : StockRec) (e : String),
        env.decDbError = none → env.paymentFails = false →
        env.confirmThrows = some e → env.rollbackDbError = none →
        lookupStock stocks sid = some s → ¬ s.quantity < n →
        (process env ⟨stocks, orders⟩ ⟨oid, sid, n⟩).result
            = Except.error (JsError.plain e)
        ∧ (process env ⟨stocks, orders⟩ ⟨oid, sid, n⟩).trace
            = [Eff.decCall sid n, Eff.incCall sid n]
        ∧ lookupStock (process env ⟨stocks, orders⟩ ⟨oid, sid, n⟩).sys.stocks
              sid = some s
        ∧ (process env ⟨stocks, orders⟩ ⟨oid, sid, n⟩).sys.orders = orders)
    ∧ (∀ (env : Env) (stocks : StockDB) (orders : OrderDB) (oid sid : Nat)
        (n : Int) (s : StockRec) (m : String),
        env.decDbError = none → env.paymentFails = true →
        env.rollbackDbError = some m →
        lookupStock stocks sid = some s → ¬ s.quantity < n →
        (process env ⟨stocks, orders⟩ ⟨oid, sid, n⟩).result
            = Except.error (JsError.plain paymentTimeoutMsg)
        ∧ (process env ⟨stocks, orders⟩ ⟨oid, sid, n⟩).trace
            = [Eff.decCall sid n, Eff.incCall sid n,
               Eff.logCritical "Failed to rollback stock"]) := by
  refine ⟨?_, ?_, ?_⟩
  · intro env stocks orders oid sid n s hde hpf hrb hs hq
    have hdec := decrement_success stocks sid n s hs hq
    have hlu2 : lookupStock
        (writeStock stocks sid { s with quantity := s.quantity - n }) sid
        = some { s with quantity := s.quantity - n } := by
      rw [lookupStock_write_self, hs]
      rfl
    have hinc := increment_found
      (writeStock stocks sid { s with quantity := s.quantity - n }) sid n
      { s with quantity := s.quantity - n } hlu2
    have hqq : s.quantity - n + n = s.quantity := by omega
    refine ⟨?_, ?_, ?_, ?_⟩ <;>
      simp [process, hde, hdec, processWithResult, afterDec, hpf,
        rollbackCatch, hrb, hinc, lookupStock_write_self, hlu2, hqq]
  · intro env stocks orders oid sid n s e hde hpf hct hrb hs hq
    have hdec := decrement_success stocks sid n s hs hq
    have hlu2 : lookupStock
        (writeStock stocks sid { s with quantity := s.quantity - n }) sid
        = some { s with quantity := s.quantity - n } := by
      rw [lookupStock_write_self, hs]
      rfl
    have hinc := increment_found
      (writeStock stocks sid { s with quantity := s.quantity - n }) sid n
      { s with quantity := s.quantity - n } hlu2
    have hqq : s.quantity - n + n = s.quantity := by omega
    refine ⟨?_, ?_, ?_, ?_⟩ <;>
      simp [process, hde, hdec, processWithResult, afterDec, hpf, hct,
        rollbackCatch, hrb, hinc, lookupStock_write_self, hlu2, hqq]
  · intro env stocks orders oid sid n s m hde hpf hrb hs hq
    have hdec := decrement_success stocks sid n s hs hq
    refine ⟨?_, ?_⟩ <;>
      simp [process, hde, hdec, processWithResult, afterDec, hpf,
        rollbackCatch, hrb, incrementStockAtomic]

/-- Environment where the simulated payment fails. -/
def envPay : Env := { paymentFails := true }

/-- Environment where the CONFIRMED order write rejects. -/
def envConfirmErr : Env := { confirmThrows := some "Database connection failed" }

/-- Environment where payment fails and the rollback write also rejects. -/
def envPayRollFail : Env :=
  { paymentFails := true, rollbackDbError := some "down" }

/-- C6 witness: the three compensation branches at a stock of quantity 100
and a reservation of 5. -/
theorem C6_compensation_on_transient_witness :
    ((process envPay ⟨[(1, ⟨7, 100, 0⟩)], [(2, oPend)]⟩ ⟨2, 1, 5⟩).result
        = Except.error (JsError.plain paymentTimeoutMsg)
      ∧ (process envPay ⟨[(1, ⟨7, 100, 0⟩)], [(2, oPend)]⟩ ⟨2, 1, 5⟩).trace
          = [Eff.decCall 1 5, Eff.incCall 1 5]
      ∧ lookupStock (process envPay ⟨[(1, ⟨7, 100, 0⟩)], [(2, oPend)]⟩
            ⟨2, 1, 5⟩).sys.stocks 1 = some ⟨7, 100, 0⟩
      ∧ (process envPay ⟨[(1, ⟨7, 100, 0⟩)], [(2, oPend)]⟩
            ⟨2, 1, 5⟩).sys.orders = [(2, oPend)])
    ∧ ((process envConfirmErr ⟨[(1, ⟨7, 100, 0⟩)], [(2, oPend)]⟩
            ⟨2, 1, 5⟩).result
          = Except.error (JsError.plain "Database connection failed")
      ∧ (process envConfirmErr ⟨[(1, ⟨7, 100, 0⟩)], [(2, oPend)]⟩
            ⟨2, 1, 5⟩).trace = [Eff.decCall 1 5, Eff.incCall 1 5]
      ∧ lookupStock (process envConfirmErr ⟨[(1, ⟨7, 100, 0⟩)], [(2, oPend)]⟩
            ⟨2, 1, 5⟩).sys.stocks 1 = some ⟨7, 100, 0⟩
      ∧ (process envConfirmErr ⟨[(1, ⟨7, 100, 0⟩)], [(2, oPend)]⟩
            ⟨2, 1, 5⟩).sys.orders = [(2, oPend)])
    ∧ ((process envPayRollFail ⟨[(1, ⟨7, 100, 0⟩)], [(2, oPend)]⟩
            ⟨2, 1, 5⟩).result
          = Except.error (JsError.plain paymentTimeoutMsg)
      ∧ (process envPayRollFail ⟨[(1, ⟨7, 100, 0⟩)], [(2, oPend)]⟩
            ⟨2, 1, 5⟩).trace
          = [Eff.decCall 1 5, Eff.incCall 1 5,
             Eff.logCritical "Failed to rollback stock"]) :=
  ⟨C6_compensation_on_transient.1 envPay [(1, ⟨7, 100, 0⟩)] [(2, oPend)] 2 1 5
      ⟨7, 100, 0⟩ rfl rfl rfl (by decide) (by decide),
   C6_compensation_on_transient.2.1 envConfirmErr [(1, ⟨7, 100, 0⟩)]
      [(2, oPend)] 2 1 5 ⟨7, 100, 0⟩ "Database connection failed" rfl rfl rfl
      rfl (by decide) (by decide),
   C6_compensation_on_transient.2.2 envPayRollFail [(1, ⟨7, 100, 0⟩)]
      [(2, oPend)] 2 1 5 ⟨7, 100, 0⟩ "down" rfl rfl rfl (by decide)
      (by decide)⟩

/-- An already-CONFIRMED order fixture. -/
def oConf : OrderRec := ⟨10, 7, 1, 5, 99, OrderStatus.confirmed, false, ""⟩

/-- C1 counterexample: with order 2 already CONFIRMED and stock quantity
100, `process` still calls `decrementStockAtomic` and the stock drops to
95 — the claimed read-and-acknowledge guard does not exist, so a second
delivery is not side-effect free. -/
theorem C1_counterexample_guard_absent :
    Eff.decCall 1 5
        ∈ (process envBenign ⟨[(1, ⟨7, 100, 0⟩)], [(2, oConf)]⟩
            ⟨2, 1, 5⟩).trace
    ∧ (process envBenign ⟨[(1, ⟨7, 100, 0⟩)], [(2, oConf)]⟩
          ⟨2, 1, 5⟩).sys.stocks = [(1, ⟨7, 95, 0⟩)]
    ∧ (process envBenign ⟨[(1, ⟨7, 100, 0⟩)], [(2, oConf)]⟩
          ⟨2, 1, 5⟩).sys.stocks ≠ [(1, ⟨7, 100, 0⟩)] := by
  decide

/-- C1 (amended): `OrderProcessor.process` performs no idempotency read of
the order: whatever the order's status (in particular a terminal one), a
dispatched job goes straight to the stock decrement, so when enough stock
is available the quantity is reduced by `n` again and the order is
re-written to CONFIRMED.  Re-processing a job after a terminal first
attempt therefore mutates stock a second time. -/
theorem C1_no_idempotency_guard (stocks : StockDB) (orders : OrderDB)
    (oid sid : Nat) (n : Int) (s : StockRec) (o : OrderRec)
    (_hterm : o.status ≠ OrderStatus.pending)
    (ho : lookupOrder orders oid = some o)
    (hs : lookupStock stocks sid = some s) (hq : ¬ s.quantity < n) :
    Eff.decCall sid n
        ∈ (process envBenign ⟨stocks, orders⟩ ⟨oid, sid, n⟩).trace
    ∧ lookupStock (process envBenign ⟨stocks, orders⟩ ⟨oid, sid, n⟩).sys.stocks
          sid = some { s with quantity := s.quantity - n }
    ∧ lookupOrder (process envBenign ⟨stocks, orders⟩ ⟨oid, sid, n⟩).sys.orders
          oid = some { o with status := OrderStatus.confirmed, failureReason := "" } := by
  have hdec := decrement_success stocks sid n s hs hq
  have hupd := lookupOrder_update_self orders oid OrderStatus.confirmed "" o ho
  refine ⟨?_, ?_, ?_⟩ <;>
    simp [process, envBenign, hdec, processWithResult, afterDec,
      lookupStock_write_self, hs, hupd]

/-- C1 witness: the amended statement applied to the state reached after a
first (terminal) processing — stock already at 95, order CONFIRMED — so a
redelivered job decrements the stock again to 90. -/
theorem C1_no_idempotency_guard_witness :
    Eff.decCall 1 5
        ∈ (process envBenign ⟨[(1, ⟨7, 95, 0⟩)], [(2, oConf)]⟩
            ⟨2, 1, 5⟩).trace
    ∧ lookupStock (process envBenign ⟨[(1, ⟨7, 95, 0⟩)], [(2, oConf)]⟩
          ⟨2, 1, 5⟩).sys.stocks 1 = some { (⟨7, 95, 0⟩ : StockRec) with quantity := (95 : Int) - 5 }
    ∧ lookupOrder (process envBenign ⟨[(1, ⟨7, 95, 0⟩)], [(2, oConf)]⟩
          ⟨2, 1, 5⟩).sys.orders 2 = some { oConf with status := OrderStatus.confirmed, failureReason := "" } :=
  C1_no_idempotency_guard [(1, ⟨7, 95, 0⟩)] [(2, oConf)] 2 1 5 ⟨7, 95, 0⟩
    oConf (by decide) (by decide) (by decide) (by decide)

/-- C2 counterexample: order 2 is already terminal (CONFIRMED), yet the
DLQ observer's FAILED write goes through unconditionally and overwrites
the terminal status — it is neither guarded nor a no-op, and nothing like
`AlreadyTerminal` is returned. -/
theorem C2_counterexample_terminal_overwritten :
    handleFailedJob false [(2, oConf)] 2 "boom"
        = Except.ok
            ([(2, { oConf with status := OrderStatus.failed, failureReason := "boom" })],
             [Eff.orderWrite 2 OrderStatus.failed "boom"])
    ∧ oConf.status = OrderStatus.confirmed :=
  ⟨rfl, rfl⟩

/-- C2 (amended): none of the terminal status writes is guarded.  The DLQ
observer's FAILED write and the worker's CONFIRMED write both update the
order unconditionally whenever the document exists — regardless of its
current (possibly terminal) status — so a later terminal write overwrites
an earlier terminal status instead of being a no-op, and no
`AlreadyTerminal` outcome exists in the code. -/
theorem C2_terminal_writes_unguarded :
    (∀ (orders : OrderDB) (oid : Nat) (o : OrderRec) (reason : String),
        reason ≠ "" → lookupOrder orders oid = some o →
        ∃ db2 tr, handleFailedJob false orders oid reason
            = Except.ok (db2, tr)
          ∧ lookupOrder db2 oid
            = some { o with status := OrderStatus.failed, failureReason := reason })
    ∧ (∀ (stocks : StockDB) (orders : OrderDB) (oid sid : Nat) (n : Int)
        (s : StockRec) (o : OrderRec),
        lookupOrder orders oid = some o →
        lookupStock stocks sid = some s → ¬ s.quantity < n →
        lookupOrder (process envBenign ⟨stocks, orders⟩
              ⟨oid, sid, n⟩).sys.orders oid
          = some { o with status := OrderStatus.confirmed, failureReason := "" }) := by
  constructor
  · intro orders oid o reason hne ho
    have hfst : (orderFindByIdAndUpdate orders oid OrderStatus.failed
        reason).1 = some { o with status := OrderStatus.failed, failureReason := reason } := by
      simp [orderFindByIdAndUpdate, ho]
    refine ⟨(orderFindByIdAndUpdate orders oid OrderStatus.failed reason).2,
      [Eff.orderWrite oid OrderStatus.failed reason], ?_,
      lookupOrder_update_self orders oid OrderStatus.failed reason o ho⟩
    simp [handleFailedJob, hne, hfst]
  · intro stocks orders oid sid n s o ho hs hq
    have hdec := decrement_success stocks sid n s hs hq
    have hupd := lookupOrder_update_self orders oid OrderStatus.confirmed ""
      o ho
    simp [process, envBenign, hdec, processWithResult, afterDec, hupd]

/-- C2 witness: the DLQ FAILED write applied to the CONFIRMED order 2, and
the worker's CONFIRMED write applied to an order that is already FAILED. -/
theorem C2_terminal_writes_unguarded_witness :
    (∃ db2 tr, handleFailedJob false [(2, oConf)] 2 "late failure"
        = Except.ok (db2, tr)
      ∧ lookupOrder db2 2
        = some { oConf with status := OrderStatus.failed, failureReason := "late failure" })
    ∧ lookupOrder (process envBenign
          ⟨[(1, ⟨7, 100, 0⟩)],
           [(2, { oConf with status := OrderStatus.failed, failureReason := "x" })]⟩
          ⟨2, 1, 5⟩).sys.orders 2
      = some { { oConf with status := OrderStatus.failed, failureReason := "x" } with
          status := OrderStatus.confirmed, failureReason := "" } :=
  ⟨C2_terminal_writes_unguarded.1 [(2, oConf)] 2 oConf "late failure"
      (by decide) (by decide),
   C2_terminal_writes_unguarded.2 [(1, ⟨7, 100, 0⟩)]
      [(2, { oConf with status := OrderStatus.failed, failureReason := "x" })]
      2 1 5 ⟨7, 100, 0⟩
      { oConf with status := OrderStatus.failed, failureReason := "x" }
      (by decide) (by decide) (by decide)⟩

/-- C8: when the PENDING order has been saved but enqueuing fails,
`createOrder` re-throws the enqueue error, keeps the order in the store
with status PENDING (no deletion), and adds nothing to the queue. -/
theorem C8_enqueue_failure_keeps_pending (orders : OrderDB)
    (stocks : StockDB) (queue : List QueuedJob) (data : OrderIn)
    (isVip : Bool) (newId : Nat) (e : String) (s : StockRec)
    (hs : lookupStock stocks data.stockId = some s) :
    (createOrder orders stocks queue data isVip newId (some e)).1
        = Except.error (JsError.plain e)
    ∧ (createOrder orders stocks queue data isVip newId (some e)).2.1
        = orders ++
          [(newId,
            { userId := data.userId, productId := s.productId, stockId := data.stockId, quantity := data.quantity, priceAtPurchase := data.priceAtPurchase, status := OrderStatus.pending, isVipOrder := data.isVipOrder, failureReason := "" })]
    ∧ (createOrder orders stocks queue data isVip newId (some e)).2.2
        = queue := by
  refine ⟨?_, ?_, ?_⟩ <;> simp [createOrder, hs]

/-- C8 witness: enqueue failure at a concrete submission. -/
theorem C8_enqueue_failure_keeps_pending_witness :
    (createOrder [] [(1, ⟨7, 100, 0⟩)] [] ⟨10, 1, 5, 99, false⟩ false 2
        (some "redis down")).1 = Except.error (JsError.plain "redis down")
    ∧ (createOrder [] [(1, ⟨7, 100, 0⟩)] [] ⟨10, 1, 5, 99, false⟩ false 2
        (some "redis down")).2.1
      = [] ++
        [(2, { userId := (⟨10, 1, 5, 99, false⟩ : OrderIn).userId, productId := (⟨7, 100, 0⟩ : StockRec).productId, stockId := (⟨10, 1, 5, 99, false⟩ : OrderIn).stockId, quantity := (⟨10, 1, 5, 99, false⟩ : OrderIn).quantity, priceAtPurchase := (⟨10, 1, 5, 99, false⟩ : OrderIn).priceAtPurchase, status := OrderStatus.pending, isVipOrder := (⟨10, 1, 5, 99, false⟩ : OrderIn).isVipOrder, failureReason := "" })]
    ∧ (createOrder [] [(1, ⟨7, 100, 0⟩)] [] ⟨10, 1, 5, 99, false⟩ false 2
        (some "redis down")).2.2 = [] :=
  C8_enqueue_failure_keeps_pending [] [(1, ⟨7, 100, 0⟩)] []
    ⟨10, 1, 5, 99, false⟩ false 2 "redis down" ⟨7, 100, 0⟩ (by decide)

/-- C9: every successfully enqueued job carries exactly the configured
options — priority 1 for VIP submissions and the queue default (absent)
otherwise, 5 attempts, exponential backoff with base 2000 ms, retention of
the last 500 completed and last 10 failed jobs — and BullMQ's exponential
backoff with that base yields delays 2 s, 4 s, 8 s, 16 s for retry
attempts 1 through 4. -/
theorem C9_job_options (orders : OrderDB) (stocks : StockDB)
    (queue : List QueuedJob) (data : OrderIn) (isVip : Bool) (newId : Nat)
    (s : StockRec) (hs : lookupStock stocks data.stockId = some s) :
    (createOrder orders stocks queue data isVip newId none).1
        = Except.ok newId
    ∧ (createOrder orders stocks queue data isVip newId none).2.2
        = queue ++
          [{ name := "process-order",
             payload := { userId := data.userId, productId := s.productId, stockId := data.stockId, quantity := data.quantity, priceAtPurchase := data.priceAtPurchase, isVipOrder := data.isVipOrder, orderId := newId },
             opts := { priority := if isVip then some 1 else none, removeOnCompleteCount := 500, removeOnFailCount := 10, attempts := 5, backoffType := "exponential", backoffDelay := 2000 } }]
    ∧ bullmqExponentialDelay 2000 1 = 2000
    ∧ bullmqExponentialDelay 2000 2 = 4000
    ∧ bullmqExponentialDelay 2000 3 = 8000
    ∧ bullmqExponentialDelay 2000 4 = 16000 := by
  refine ⟨?_, ?_, rfl, rfl, rfl, rfl⟩ <;> simp [createOrder, hs]

/-- C9 witness: one VIP and one regular submission at concrete inputs. -/
theorem C9_job_options_witness :
    ((createOrder [] [(1, ⟨7, 100, 0⟩)] [] ⟨10, 1, 5, 99, true⟩ true 2
          none).1 = Except.ok 2
      ∧ (createOrder [] [(1, ⟨7, 100, 0⟩)] [] ⟨10, 1, 5, 99, true⟩ true 2
          none).2.2
        = [] ++
          [{ name := "process-order",
             payload := { userId := (⟨10, 1, 5, 99, true⟩ : OrderIn).userId, productId := (⟨7, 100, 0⟩ : StockRec).productId, stockId := (⟨10, 1, 5, 99, true⟩ : OrderIn).stockId, quantity := (⟨10, 1, 5, 99, true⟩ : OrderIn).quantity, priceAtPurchase := (⟨10, 1, 5, 99, true⟩ : OrderIn).priceAtPurchase, isVipOrder := (⟨10, 1, 5, 99, true⟩ : OrderIn).isVipOrder, orderId := 2 },
             opts := { priority := if true then some 1 else none, removeOnCompleteCount := 500, removeOnFailCount := 10, attempts := 5, backoffType := "exponential", backoffDelay := 2000 } }]
      ∧ bullmqExponentialDelay 2000 1 = 2000
      ∧ bullmqExponentialDelay 2000 2 = 4000
      ∧ bullmqExponentialDelay 2000 3 = 8000
      ∧ bullmqExponentialDelay 2000 4 = 16000)
    ∧ ((createOrder [] [(1, ⟨7, 100, 0⟩)] [] ⟨10, 1, 5, 99, false⟩ false 2
          none).1 = Except.ok 2
      ∧ (createOrder [] [(1, ⟨7, 100, 0⟩)] [] ⟨10, 1, 5, 99, false⟩ false 2
          none).2.2
        = [] ++
          [{ name := "process-order",
             payload := { userId := (⟨10, 1, 5, 99, false⟩ : OrderIn).userId, productId := (⟨7, 100, 0⟩ : StockRec).productId, stockId := (⟨10, 1, 5, 99, false⟩ : OrderIn).stockId, quantity := (⟨10, 1, 5, 99, false⟩ : OrderIn).quantity, priceAtPurchase := (⟨10, 1, 5, 99, false⟩ : OrderIn).priceAtPurchase, isVipOrder := (⟨10, 1, 5, 99, false⟩ : OrderIn).isVipOrder, orderId := 2 },
             opts := { priority := if false then some 1 else none, removeOnCompleteCount := 500, removeOnFailCount := 10, attempts := 5, backoffType := "exponential", backoffDelay := 2000 } }]
      ∧ bullmqExponentialDelay 2000 1 = 2000
      ∧ bullmqExponentialDelay 2000 2 = 4000
      ∧ bullmqExponentialDelay 2000 3 = 8000
      ∧ bullmqExponentialDelay 2000 4 = 16000) :=
  ⟨C9_job_options [] [(1, ⟨7, 100, 0⟩)] [] ⟨10, 1, 5, 99, true⟩ true 2
      ⟨7, 100, 0⟩ (by decide),
   C9_job_options [] [(1, ⟨7, 100, 0⟩)] [] ⟨10, 1, 5, 99, false⟩ false 2
      ⟨7, 100, 0⟩ (by decide)⟩

/-- C10: the DLQ observer's failed-job handler never propagates an error:
for every input it returns normally (`Except.ok`), and when the FAILED
write itself throws, the order store is left unchanged and the only
side-effect is the error log. -/
theorem C10_dlq_swallows_write_errors (writeThrows : Bool)
    (orders : OrderDB) (oid : Nat) (msg : String) :
    ∃ db2 tr, handleFailedJob writeThrows orders oid msg
        = Except.ok (db2, tr)
      ∧ (writeThrows = true → db2 = orders
          ∧ tr = [Eff.logError "Failed to update order status to FAILED"]) := by
  cases writeThrows with
  | true => exact ⟨orders, _, rfl, fun _ => ⟨rfl, rfl⟩⟩
  | false =>
    refine ⟨_, _, rfl, ?_⟩
    intro h
    simp at h

/-- C10 witness: a throwing write at a concrete order store. -/
theorem C10_dlq_swallows_write_errors_witness :
    ∃ db2 tr, handleFailedJob true [(2, oPend)] 2 "err"
        = Except.ok (db2, tr)
      ∧ (true = true → db2 = [(2, oPend)]
          ∧ tr = [Eff.logError "Failed to update order status to FAILED"]) :=
  C10_dlq_swallows_write_errors true [(2, oPend)] 2 "err"
